import Mathlib

/-!
# Verification of the Tour of Heroes application core

A shallow embedding of the application's data-access service
(`src/app/hero.service.ts`), its list-view component
(`src/app/heroes/heroes.component.ts`), its detail-view component
(hero-detail component) and its search component's RxJS pipeline
(hero-search component), together with theorems settling the specified
properties.

Modelling conventions:
* Every HttpClient observable emits exactly one notification — a value or an
  error — and then completes.  A pipeline run is therefore a pair of the final
  notification delivered to the subscriber and the list of messages written to
  the message collector along the way (in order).
* JavaScript reference identity on heap objects is modelled by tagging each
  record held in a component's local array with a `Nat` tag (`ORef`); two
  entries model the same JavaScript object exactly when their tags coincide.
  An array slot may also hold `undefined` (`none`), which a failed `add`
  can push.
* Time is in integer milliseconds; an input to the search pipeline is a list
  of (timestamp, term) pairs with increasing timestamps.
-/

namespace ToH

/-- The domain entity (`src/app/hero.ts` is not in the sources, but its shape
`{ id: number, name: string }` is fixed by the spec's data model and by every
use in `hero.service.ts`). -/
structure Hero where
  id : Int
  name : String
deriving DecidableEq, Repr

/-- The body of the POST issued by `addHero`: the caller passes
`{ name } as Hero`, an object carrying only a name. -/
structure HeroPost where
  name : String
deriving DecidableEq, Repr

/-- A network request issued by the service, with its URL and payload,
mirroring the `HttpClient` calls in `hero.service.ts`. -/
inductive Request where
  | get : String → Request
  | post : String → HeroPost → Request
  | put : String → Hero → Request
  | delete : String → Request
deriving DecidableEq, Repr

/-- The single notification an `HttpClient`-style observable delivers:
either a value (`next`, followed by completion) or an error. -/
inductive Notif (α : Type) where
  | next : α → Notif α
  | error : String → Notif α
deriving DecidableEq, Repr

/-- A pipeline run: the notification finally delivered to the subscriber and
the messages written to the message collector while the run was processed. -/
def Run (α : Type) : Type := Notif α × List String

/-- The `tap` operator of `hero.service.ts`'s pipes: on a value it appends the
messages its callback logs and passes the value on untouched; an error passes
through without logging. -/
def tapRun {α : Type} (f : α → List String) : Run α → Run α
  | (Notif.next a, ms) => (Notif.next a, ms ++ f a)
  | (Notif.error e, ms) => (Notif.error e, ms)

/-- The `map` operator: transforms a delivered value, passes errors through. -/
def mapRun {α β : Type} (f : α → β) : Run α → Run β
  | (Notif.next a, ms) => (Notif.next (f a), ms)
  | (Notif.error e, ms) => (Notif.error e, ms)

/-- The `catchError` operator: a value passes through; an error is replaced by
whatever run the handler returns (its messages appended after the ones already
logged). -/
def catchErrorRun {α : Type} (h : String → Run α) : Run α → Run α
  | (Notif.next a, ms) => (Notif.next a, ms)
  | (Notif.error e, ms) => ((h e).1, ms ++ (h e).2)

/-- JavaScript `String.prototype.trim` (used as `term.trim()` in
`searchHeroes` and as `name.trim()` in `HeroesComponent.add`): strips leading
and trailing whitespace.  Defined over the string's character list so that it
computes by kernel reduction. -/
def trim (s : String) : String :=
  ⟨((s.data.dropWhile Char.isWhitespace).reverse.dropWhile Char.isWhitespace).reverse⟩

/-- `HeroService.log`: every collector message is prefixed with
"HeroService: " (`hero.service.ts`, `log`). -/
def svcLog (message : String) : String :=
  "HeroService: " ++ message

/-- `HeroService.handleError(operation, result)` (`hero.service.ts`): writes
one operation-tagged line to the message collector and resolves with the
caller-supplied fallback `result`.  (The `console.error` write goes to the
browser console, not to the message collector, and is not modelled.) -/
def handleError {α : Type} (operation : String) (result : α) (e : String) : Run α :=
  (Notif.next result, [svcLog (operation ++ " failed: " ++ e)])

/-- `HeroService.heroesUrl`. -/
def heroesUrl : String := "api/heroes"

/-- Requests issued by `HeroService.getHeroes`. -/
def getHeroesRequests : List Request := [Request.get heroesUrl]

/-- `HeroService.getHeroes`: `http.get(heroesUrl).pipe(tap(log 'fetched
heroes'), catchError(handleError 'getHeroes' []))`, as a function of the
transport's notification. -/
def getHeroes (resp : Notif (List Hero)) : Run (List Hero) :=
  catchErrorRun (handleError "getHeroes" [])
    (tapRun (fun _ => [svcLog "fetched heroes"]) (resp, []))

/-- Requests issued by `HeroService.getHero`. -/
def getHeroRequests (id : Int) : List Request :=
  [Request.get (heroesUrl ++ "/" ++ toString id)]

/-- `HeroService.getHero(id)`: `http.get(url).pipe(tap(log ...),
catchError(handleError ('getHero id=' + id)))`.  The fallback is
`undefined`, so the delivered value is an `Option Hero` (`some` injected over
the transport's hero). -/
def getHero (id : Int) (resp : Notif Hero) : Run (Option Hero) :=
  catchErrorRun (handleError ("getHero id=" ++ toString id) none)
    (mapRun some
      (tapRun (fun _ => [svcLog ("fetched hero id=" ++ toString id)]) (resp, [])))

/-- Requests issued by `HeroService.getHeroNo404`. -/
def getHeroNo404Requests (id : Int) : List Request :=
  [Request.get (heroesUrl ++ "/?id=" ++ toString id)]

/-- `HeroService.getHeroNo404(id)`: `http.get<Hero[]>(url).pipe(map(heroes =>
heroes[0]), tap(h => log ((h ? 'fetched' : 'did not find') + ' hero id=' +
id)), catchError(handleError ('getHero id=' + id)))`.  Indexing the {0|1}
element array yields `undefined` when empty, so the mapped value is an
`Option Hero` (`List.head?`); the truthiness test on `h` is `Option.isSome`;
the fallback is `undefined`.  Note the error tag reads `getHero id=…`, as in
the source. -/
def getHeroNo404 (id : Int) (resp : Notif (List Hero)) : Run (Option Hero) :=
  catchErrorRun (handleError ("getHero id=" ++ toString id) none)
    (tapRun (fun h =>
        [svcLog ((if h.isSome then "fetched" else "did not find") ++
          " hero id=" ++ toString id)])
      (mapRun List.head? (resp, [])))

/-- Requests issued by `HeroService.searchHeroes`: none when the term trims to
empty, otherwise one GET to the filtered endpoint. -/
def searchHeroesRequests (term : String) : List Request :=
  if trim term = "" then []
  else [Request.get (heroesUrl ++ "/?name=" ++ term)]

/-- `HeroService.searchHeroes(term)`: `if (!term.trim()) return of([]);`
otherwise `http.get(url).pipe(tap(x => x.length ? log found : log no),
catchError(handleError 'searchHeroes' []))`. -/
def searchHeroes (term : String) (resp : Notif (List Hero)) : Run (List Hero) :=
  if trim term = "" then (Notif.next [], [])
  else
    catchErrorRun (handleError "searchHeroes" [])
      (tapRun (fun x =>
          [svcLog (if x.length ≠ 0 then
              "found heroes matching \"" ++ term ++ "\""
            else
              "no heroes matching \"" ++ term ++ "\"")]) (resp, []))

/-- Requests issued by `HeroService.addHero(hero)`: one POST of the given
body. -/
def addHeroRequests (hero : HeroPost) : List Request :=
  [Request.post heroesUrl hero]

/-- `HeroService.addHero`: `http.post(...).pipe(tap(newHero => log ('added
hero w/ id=' + newHero.id)), catchError(handleError 'addHero'))`.  The
fallback is `undefined` (no `result` argument supplied), so the delivered
value is an `Option Hero`. -/
def addHero (resp : Notif Hero) : Run (Option Hero) :=
  catchErrorRun (handleError "addHero" none)
    (mapRun some
      (tapRun (fun newHero => [svcLog ("added hero w/ id=" ++ toString newHero.id)])
        (resp, [])))

/-- Requests issued by `HeroService.deleteHero(id)`. -/
def deleteHeroRequests (id : Int) : List Request :=
  [Request.delete (heroesUrl ++ "/" ++ toString id)]

/-- `HeroService.deleteHero(id)`: `http.delete(url).pipe(tap(log ('deleted
hero id=' + id)), catchError(handleError 'deleteHero'))`; fallback
`undefined`. -/
def deleteHero (id : Int) (resp : Notif Hero) : Run (Option Hero) :=
  catchErrorRun (handleError "deleteHero" none)
    (mapRun some
      (tapRun (fun _ => [svcLog ("deleted hero id=" ++ toString id)]) (resp, [])))

/-- Requests issued by `HeroService.updateHero(hero)`. -/
def updateHeroRequests (hero : Hero) : List Request :=
  [Request.put heroesUrl hero]

/-- `HeroService.updateHero(hero)`: `http.put(heroesUrl, hero,
httpOptions).pipe(tap(log ...), catchError(handleError 'updateHero'))`;
the delivered body is unused by every caller, so it is modelled as `Unit`
(the failure fallback is likewise a unit). -/
def updateHero (hero : Hero) (resp : Notif Unit) : Run Unit :=
  catchErrorRun (handleError "updateHero" ())
    (tapRun (fun _ => [svcLog ("updated hero id=" ++ toString hero.id)]) (resp, []))

/-- A record held in a component's local array, tagged with its JavaScript
object identity: two entries are the same heap object exactly when their tags
coincide. -/
structure ORef where
  tag : Nat
  hero : Hero
deriving DecidableEq, Repr

/-- A slot of the list view's `heroes` array: a record object, or the
`undefined` a failed `add` pushes. -/
abbrev Slot := Option ORef

/-- The `h !== hero` test of `HeroesComponent.delete`'s filter callback:
JavaScript strict inequality, i.e. reference inequality for objects; an
`undefined` slot is never reference-equal to a record. -/
def slotNe (s : Slot) (r : ORef) : Bool :=
  match s with
  | some o => o.tag ≠ r.tag
  | none => true

/-- `HeroesComponent.delete(hero)`, local-state half:
`this.heroes = this.heroes.filter(h => h !== hero)`. -/
def heroesDelete (st : List Slot) (r : ORef) : List Slot :=
  st.filter (fun s => slotNe s r)

/-- `HeroesComponent.delete(hero)`, remote half:
`this.heroService.deleteHero(hero.id).subscribe()` — subscribing issues the
request, keyed by the record's id, regardless of the local list. -/
def heroesDeleteRequests (r : ORef) : List Request :=
  deleteHeroRequests r.hero.id

/-- Requests issued by `HeroesComponent.add(name)`: after `name = name.trim()`
a blank name returns before any service call; otherwise `addHero({ name })`
is called and subscribed, issuing its one POST with the trimmed name. -/
def heroesAddRequests (name : String) : List Request :=
  if trim name = "" then [] else addHeroRequests ⟨trim name⟩

/-- `HeroesComponent.add(name)`, local-state half, as a function of the
transport's notification.  A blank trimmed name returns without touching the
list.  Otherwise the subscription's callback `hero => this.heroes.push(hero)`
pushes whatever `addHero` delivers: on success the server-returned record (a
fresh heap object, given tag `tag`), on a swallowed failure the `undefined`
fallback. -/
def heroesAddStep (st : List Slot) (name : String) (resp : Notif Hero) (tag : Nat) :
    List Slot :=
  if trim name = "" then st
  else
    match (addHero resp).1 with
    | Notif.next (some h) => st ++ [some ⟨tag, h⟩]
    | Notif.next none => st ++ [none]
    | Notif.error _ => st

/-- Requests issued by `HeroDetailComponent.save()`: nothing when no record is
loaded, otherwise the `updateHero` PUT (issued because `save` subscribes). -/
def saveRequests (hero : Option Hero) : List Request :=
  match hero with
  | none => []
  | some h => updateHeroRequests h

/-- Whether `HeroDetailComponent.save()` navigates back:
`this.heroService.updateHero(this.hero).subscribe(() => this.goBack())` —
`goBack` runs exactly when the update run delivers a value notification. -/
def saveNavigatesBack (hero : Option Hero) (resp : Notif Unit) : Bool :=
  match hero with
  | none => false
  | some h =>
    match (updateHero h resp).1 with
    | Notif.next _ => true
    | Notif.error _ => false

/-- `debounceTime(d)` over a timed input (`HeroSearchComponent.ngOnInit`,
stage 1): an input event is emitted `d` ms after it arrives unless another
event arrives first within less than `d` ms, in which case it is discarded
and the timer restarts from the newer event. -/
def debounce (d : Nat) : List (Nat × String) → List (Nat × String)
  | [] => []
  | [(t, s)] => [(t + d, s)]
  | (t1, s1) :: (t2, s2) :: rest =>
    if t2 - t1 < d then debounce d ((t2, s2) :: rest)
    else (t1 + d, s1) :: debounce d ((t2, s2) :: rest)

/-- Helper for `distinctUntilChanged`: drops events whose value equals the
most recently emitted value `prev`. -/
def dedupFrom (prev : String) : List (Nat × String) → List (Nat × String)
  | [] => []
  | (t, s) :: rest =>
    if s = prev then dedupFrom prev rest else (t, s) :: dedupFrom s rest

/-- `distinctUntilChanged` (`HeroSearchComponent.ngOnInit`, stage 2): suppress
an event whose value equals the immediately previously emitted value. -/
def dedup : List (Nat × String) → List (Nat × String)
  | [] => []
  | (t, s) :: rest => (t, s) :: dedupFrom s rest

/-- `switchMap` response forwarding (`HeroSearchComponent.ngOnInit`, stage 3):
each entry is (issue time, response time, response value) of one inner
`searchHeroes` observable, in issue order.  A response is forwarded downstream
only if it arrives strictly before the next query is issued; issuing a new
query unsubscribes the previous inner observable, so its later response is
discarded.  The final query's response is always forwarded. -/
def switchForward {α : Type} : List (Nat × Nat × α) → List (Nat × α)
  | [] => []
  | [(_, r, a)] => [(r, a)]
  | (_, r, a) :: (t2, r2, a2) :: rest =>
    if r < t2 then (r, a) :: switchForward ((t2, r2, a2) :: rest)
    else switchForward ((t2, r2, a2) :: rest)

/-- The switchMap stage applied to a stream of issued queries, given the
transport's response time and response value for each term. -/
def cancelLatest (queries : List (Nat × String)) (respT : String → Nat)
    (respV : String → List Hero) : List (Nat × List Hero) :=
  switchForward (queries.map (fun q => (q.1, respT q.2, respV q.2)))

/-- The full `heroes$` pipeline of `HeroSearchComponent.ngOnInit`:
`searchTerms.pipe(debounceTime(300), distinctUntilChanged(),
switchMap(term => searchHeroes(term)))`. -/
def searchPipeline (respT : String → Nat) (respV : String → List Hero)
    (ts : List (Nat × String)) : List (Nat × List Hero) :=
  cancelLatest (dedup (debounce 300 ts)) respT respV

/-! ## Helper lemmas -/

/-- In a burst — consecutive arrivals less than `d` apart — `debounce`
discards every event but the last, which it emits `d` ms after its arrival. -/
theorem debounce_burst (d : Nat) :
    ∀ (ts : List (Nat × String)) (hne : ts ≠ []),
      ts.Chain' (fun a b => b.1 - a.1 < d) →
      debounce d ts = [((ts.getLast hne).1 + d, (ts.getLast hne).2)]
  | [], hne, _ => absurd rfl hne
  | [(_, _)], _, _ => rfl
  | (t1, s1) :: (t2, s2) :: rest, _, hchain => by
    have hgap : t2 - t1 < d := (List.chain'_cons.mp hchain).1
    have htail := (List.chain'_cons.mp hchain).2
    have hne2 : (t2, s2) :: rest ≠ [] := List.cons_ne_nil _ _
    have ih := debounce_burst d ((t2, s2) :: rest) hne2 htail
    simp only [debounce, if_pos hgap, ih, List.getLast_cons hne2]

/-- `dedup` of a single event emits it unchanged. -/
theorem dedup_singleton (x : Nat × String) : dedup [x] = [x] := rfl

/-! ## Claims -/

/-- C1: In the search pipeline, if query A is issued and then query B for a
different term is issued before A's result is delivered, and A's result is
delivered after B's, then the switchMap stage's output contains only B's
result; A's result is never emitted downstream. -/
theorem c1_stale_result_discarded (A B : String) (tA tB rA rB : Nat)
    (resA resB : List Hero) (respT : String → Nat) (respV : String → List Hero)
    (hAB : A ≠ B) (hIssue : tA < tB) (hLate : tB < rA) (hOrder : rB < rA)
    (hTA : respT A = rA) (hTB : respT B = rB)
    (hVA : respV A = resA) (hVB : respV B = resB) :
    cancelLatest (dedup [(tA, A), (tB, B)]) respT respV = [(rB, resB)] := by
  have hdedup : dedup [(tA, A), (tB, B)] = [(tA, A), (tB, B)] := by
    simp [dedup, dedupFrom, Ne.symm hAB]
  have hnotlt : ¬ rA < tB := by omega
  rw [hdedup]
  simp [cancelLatest, switchForward, hTA, hTB, hVA, hVB, hnotlt]

/-- Witness for C1: term "ma" is issued at t=0 with its response due at
t=900; term "mag" is issued at t=400 (before "ma"'s response) and answered at
t=600 (before "ma"'s response).  Only "mag"'s result is forwarded. -/
theorem c1_witness :
    cancelLatest (dedup [(0, "ma"), (400, "mag")])
      (fun s => if s = "ma" then 900 else 600)
      (fun s => if s = "ma" then [⟨1, "Magneta"⟩] else [⟨1, "Magneta"⟩, ⟨2, "Magneto"⟩]) =
      [(600, [⟨1, "Magneta"⟩, ⟨2, "Magneto"⟩])] :=
  c1_stale_result_discarded "ma" "mag" 0 400 900 600
    [⟨1, "Magneta"⟩] [⟨1, "Magneta"⟩, ⟨2, "Magneto"⟩]
    (fun s => if s = "ma" then 900 else 600)
    (fun s => if s = "ma" then [⟨1, "Magneta"⟩] else [⟨1, "Magneta"⟩, ⟨2, "Magneto"⟩])
    (by decide) (by decide) (by decide) (by decide)
    (by decide) (by decide) (by decide) (by decide)

/-- C2: For every nonempty burst — a sequence of pushed terms whose
consecutive arrivals are less than 300 ms apart — only the burst's last term
is emitted past the debounce stage (300 ms after its arrival), and it alone
survives deduplication to reach the query stage; every earlier term is
discarded and never emitted. -/
theorem c2_debounce_burst_keeps_last (ts : List (Nat × String)) (hne : ts ≠ [])
    (hburst : ts.Chain' (fun a b => a.1 < b.1 ∧ b.1 - a.1 < 300)) :
    debounce 300 ts = [((ts.getLast hne).1 + 300, (ts.getLast hne).2)] ∧
    dedup (debounce 300 ts) = [((ts.getLast hne).1 + 300, (ts.getLast hne).2)] := by
  have h1 := debounce_burst 300 ts hne (hburst.imp (fun a b h => h.2))
  exact ⟨h1, by rw [h1, dedup_singleton]⟩

/-- Witness for C2: the burst "w", "wo", "wol" typed at t=0, 100, 250 (gaps
100 and 150 ms) debounces to the single emission ("wol" at t=550). -/
theorem c2_witness :
    debounce 300 [(0, "w"), (100, "wo"), (250, "wol")] = [(550, "wol")] ∧
    dedup (debounce 300 [(0, "w"), (100, "wo"), (250, "wol")]) = [(550, "wol")] :=
  c2_debounce_burst_keeps_last [(0, "w"), (100, "wo"), (250, "wol")]
    (List.cons_ne_nil _ _) (by simp [List.chain'_cons])

/-- C3: A transport failure during `getHeroes`, `searchHeroes` (with a
non-blank term; a blank term issues no request) or `getHero` delivers the
operation's fallback value — `[]`, `[]`, `undefined` respectively — as a
normal value notification, never an error, and writes exactly one collector
line tagged with the failing operation's name. -/
theorem c3_failure_swallowed_and_logged (e term : String) (id : Int)
    (hterm : trim term ≠ "") :
    getHeroes (Notif.error e) =
      (Notif.next [], [svcLog ("getHeroes failed: " ++ e)]) ∧
    searchHeroes term (Notif.error e) =
      (Notif.next [], [svcLog ("searchHeroes failed: " ++ e)]) ∧
    getHero id (Notif.error e) =
      (Notif.next none, [svcLog ("getHero id=" ++ toString id ++ " failed: " ++ e)]) := by
  refine ⟨rfl, ?_, rfl⟩
  simp [searchHeroes, hterm, catchErrorRun, tapRun, handleError]

/-- Witness for C3 at the failing transport error "boom", term "wolf" and
id 5. -/
theorem c3_witness :
    getHeroes (Notif.error "boom") =
      (Notif.next [], [svcLog ("getHeroes failed: " ++ "boom")]) ∧
    searchHeroes "wolf" (Notif.error "boom") =
      (Notif.next [], [svcLog ("searchHeroes failed: " ++ "boom")]) ∧
    getHero 5 (Notif.error "boom") =
      (Notif.next none, [svcLog ("getHero id=" ++ toString (5 : Int) ++ " failed: " ++ "boom")]) :=
  c3_failure_swallowed_and_logged "boom" "wolf" 5 (by decide)

/-- C4: `searchHeroes` on a term that trims to empty issues no request and
immediately delivers `[]` (with no log); on any other term it issues exactly
one GET to the filtered endpoint and delivers the transport's matches, or `[]`
on transport failure. -/
theorem c4_search_blank_shortcut (bt t : String) (resp : Notif (List Hero))
    (xs : List Hero) (e : String) (hb : trim bt = "") (ht : trim t ≠ "") :
    searchHeroesRequests bt = [] ∧
    searchHeroes bt resp = (Notif.next [], []) ∧
    searchHeroesRequests t = [Request.get (heroesUrl ++ "/?name=" ++ t)] ∧
    (searchHeroes t (Notif.next xs)).1 = Notif.next xs ∧
    (searchHeroes t (Notif.error e)).1 = Notif.next [] := by
  refine ⟨?_, ?_, ?_, ?_, ?_⟩ <;>
    simp [searchHeroesRequests, searchHeroes, hb, ht, catchErrorRun, tapRun,
      handleError]

/-- Witness for C4: blank term "   ", real term "wolf". -/
theorem c4_witness :
    searchHeroesRequests "   " = [] ∧
    searchHeroes "   " (Notif.error "down") = (Notif.next [], []) ∧
    searchHeroesRequests "wolf" = [Request.get (heroesUrl ++ "/?name=" ++ "wolf")] ∧
    (searchHeroes "wolf" (Notif.next [⟨1, "wolf"⟩])).1 = Notif.next [⟨1, "wolf"⟩] ∧
    (searchHeroes "wolf" (Notif.error "down")).1 = Notif.next [] :=
  c4_search_blank_shortcut "   " "wolf" (Notif.error "down") [⟨1, "wolf"⟩] "down"
    (by decide) (by decide)

/-- C5: When the record `r` occurs exactly once by reference in the local
list, `HeroesComponent.delete r` removes exactly one element (the list
shortens by one) and keeps every element that is not reference-equal to `r` —
matching is by reference identity, not id equality, so a distinct record
sharing `r`'s id survives. -/
theorem c5_delete_one_by_identity (st : List Slot) (r : ORef)
    (honce : st.countP (fun s => !slotNe s r) = 1) :
    (heroesDelete st r).length + 1 = st.length ∧
    ∀ s ∈ st, slotNe s r = true → s ∈ heroesDelete st r := by
  constructor
  · have h1 : (heroesDelete st r).length = st.countP (fun s => slotNe s r) :=
      (List.countP_eq_length_filter _ _).symm
    have h2 := List.length_eq_countP_add_countP (fun s => slotNe s r) st
    have h3 : st.countP (fun s => decide ¬ slotNe s r = true) =
        st.countP (fun s => !slotNe s r) := by
      apply List.countP_congr
      intro s _
      cases h : slotNe s r <;> simp [h]
    omega
  · intro s hs hne
    exact List.mem_filter.mpr ⟨hs, hne⟩

/-- Witness for C5: two distinct records (tags 0 and 1) share id 1; deleting
the tag-0 record removes exactly one element and keeps the tag-1 record. -/
theorem c5_witness :
    (heroesDelete [some ⟨0, ⟨1, "a"⟩⟩, some ⟨1, ⟨1, "a"⟩⟩] ⟨0, ⟨1, "a"⟩⟩).length + 1 =
      ([some ⟨0, ⟨1, "a"⟩⟩, some ⟨1, ⟨1, "a"⟩⟩] : List Slot).length ∧
    ∀ s ∈ ([some ⟨0, ⟨1, "a"⟩⟩, some ⟨1, ⟨1, "a"⟩⟩] : List Slot),
      slotNe s ⟨0, ⟨1, "a"⟩⟩ = true →
        s ∈ heroesDelete [some ⟨0, ⟨1, "a"⟩⟩, some ⟨1, ⟨1, "a"⟩⟩] ⟨0, ⟨1, "a"⟩⟩ :=
  c5_delete_one_by_identity [some ⟨0, ⟨1, "a"⟩⟩, some ⟨1, ⟨1, "a"⟩⟩] ⟨0, ⟨1, "a"⟩⟩
    (by decide)

/-- C6: `HeroesComponent.add` first trims the name; a blank trimmed name
issues no request and leaves the local list unchanged; otherwise exactly one
POST carrying the trimmed name is issued and, on success, exactly one new
entry holding the server-returned record (with its server-assigned id) is
appended to the local list. -/
theorem c6_add_trim_post_append (bn n : String) (st : List Slot)
    (resp : Notif Hero) (tag : Nat) (h : Hero)
    (hb : trim bn = "") (hn : trim n ≠ "") :
    heroesAddRequests bn = [] ∧
    heroesAddStep st bn resp tag = st ∧
    heroesAddRequests n = [Request.post heroesUrl ⟨trim n⟩] ∧
    heroesAddStep st n (Notif.next h) tag = st ++ [some ⟨tag, h⟩] := by
  refine ⟨?_, ?_, ?_, ?_⟩ <;>
    simp [heroesAddRequests, heroesAddStep, addHeroRequests, addHero, hb, hn,
      catchErrorRun, mapRun, tapRun]

/-- Witness for C6: adding "  Wolverine  " to an empty list with the server
assigning id 11, and the blank add "   ". -/
theorem c6_witness :
    heroesAddRequests "   " = [] ∧
    heroesAddStep [] "   " (Notif.next ⟨11, "Wolverine"⟩) 0 = [] ∧
    heroesAddRequests "  Wolverine  " = [Request.post heroesUrl ⟨trim "  Wolverine  "⟩] ∧
    heroesAddStep [] "  Wolverine  " (Notif.next ⟨11, "Wolverine"⟩) 0 =
      [] ++ [some ⟨0, ⟨11, "Wolverine"⟩⟩] :=
  c6_add_trim_post_append "   " "  Wolverine  " [] (Notif.next ⟨11, "Wolverine"⟩) 0
    ⟨11, "Wolverine"⟩ (by decide) (by decide)

/-- C7: Whenever a record is loaded in the detail view, `save()` issues the
`updateHero` PUT and navigates back for every transport outcome — including a
transport failure, which `handleError` swallows into a value notification, so
the subscription's callback still fires and navigation back still occurs. -/
theorem c7_save_navigates_even_on_failure (h : Hero) (resp : Notif Unit) :
    saveRequests (some h) = [Request.put heroesUrl h] ∧
    saveNavigatesBack (some h) resp = true := by
  refine ⟨rfl, ?_⟩
  cases resp <;> rfl

/-- Every message of `ms` begins with the service prefix "HeroService: ". -/
def svcTagged (ms : List String) : Prop :=
  ∀ m ∈ ms, ∃ r, m = "HeroService: " ++ r

theorem svcTagged_nil : svcTagged [] := by
  intro m hm
  cases hm

theorem svcTagged_single (x : String) : svcTagged [svcLog x] := by
  intro m hm
  rw [List.mem_singleton] at hm
  exact ⟨x, hm⟩

/-- C8: Every message any service operation writes to the message collector —
on success or on failure, `getHeroNo404` included — begins with the prefix
"HeroService: ", because every write goes through `log`. -/
theorem c8_messages_prefixed (rl rs rn : Notif (List Hero)) (rh ra rd : Notif Hero)
    (ru : Notif Unit) (id nid did : Int) (term : String) (hero : Hero) :
    svcTagged (getHeroes rl).2 ∧ svcTagged (getHero id rh).2 ∧
    svcTagged (getHeroNo404 nid rn).2 ∧
    svcTagged (searchHeroes term rs).2 ∧ svcTagged (addHero ra).2 ∧
    svcTagged (deleteHero did rd).2 ∧ svcTagged (updateHero hero ru).2 := by
  refine ⟨?_, ?_, ?_, ?_, ?_, ?_, ?_⟩
  · cases rl <;> exact svcTagged_single _
  · cases rh <;> exact svcTagged_single _
  · cases rn <;> exact svcTagged_single _
  · by_cases ht : trim term = ""
    · simp only [searchHeroes, if_pos ht]
      exact svcTagged_nil
    · cases rs <;> simp only [searchHeroes, if_neg ht] <;> exact svcTagged_single _
  · cases ra <;> exact svcTagged_single _
  · cases rd <;> exact svcTagged_single _
  · cases ru <;> exact svcTagged_single _

/-- Witness for C8: the failure log of `getHeroes` on the error "boom" carries
the prefix. -/
theorem c8_witness :
    ∃ r, "HeroService: getHeroes failed: boom" = "HeroService: " ++ r :=
  (c8_messages_prefixed (Notif.error "boom") (Notif.next []) (Notif.next [])
      (Notif.next ⟨1, "a"⟩) (Notif.next ⟨1, "a"⟩) (Notif.next ⟨1, "a"⟩)
      (Notif.next ()) 1 1 1 "t" ⟨1, "a"⟩).1
    "HeroService: getHeroes failed: boom" (by decide)

/-- C9: Every service operation that issues a request writes exactly one
collector message per delivered result, on success as well as on failure;
the success messages name the outcome ("fetched heroes", "found heroes
matching …", "no heroes matching …"); the blank-term search shortcut writes
no message at all. -/
theorem c9_one_message_per_result (xs hs : List Hero) (h hd u : Hero)
    (e t bt : String) (id nid did : Int) (rb : Notif (List Hero))
    (ht : trim t ≠ "") (hb : trim bt = "") :
    (getHeroes (Notif.next xs)).2 = [svcLog "fetched heroes"] ∧
    (getHeroes (Notif.error e)).2.length = 1 ∧
    (getHero id (Notif.next h)).2.length = 1 ∧
    (getHero id (Notif.error e)).2.length = 1 ∧
    (getHeroNo404 nid (Notif.next (hd :: hs))).2 =
      [svcLog ("fetched hero id=" ++ toString nid)] ∧
    (getHeroNo404 nid (Notif.next [])).2 =
      [svcLog ("did not find hero id=" ++ toString nid)] ∧
    (getHeroNo404 nid (Notif.error e)).2.length = 1 ∧
    (searchHeroes t (Notif.next (hd :: hs))).2 =
      [svcLog ("found heroes matching \"" ++ t ++ "\"")] ∧
    (searchHeroes t (Notif.next [])).2 =
      [svcLog ("no heroes matching \"" ++ t ++ "\"")] ∧
    (searchHeroes t (Notif.error e)).2.length = 1 ∧
    (searchHeroes bt rb).2 = [] ∧
    (addHero (Notif.next h)).2.length = 1 ∧
    (addHero (Notif.error e)).2.length = 1 ∧
    (deleteHero did (Notif.next h)).2.length = 1 ∧
    (deleteHero did (Notif.error e)).2.length = 1 ∧
    (updateHero u (Notif.next ())).2.length = 1 ∧
    (updateHero u (Notif.error e)).2.length = 1 := by
  refine ⟨rfl, rfl, rfl, rfl, rfl, rfl, rfl, ?_, ?_, ?_, ?_, rfl, rfl, rfl, rfl, rfl, rfl⟩ <;>
    simp [searchHeroes, ht, hb, catchErrorRun, tapRun, handleError]

/-- Witness for C9 at term "wolf", blank term "   ", error "down", id 5. -/
theorem c9_witness :
    (getHeroes (Notif.next [⟨1, "a"⟩])).2 = [svcLog "fetched heroes"] ∧
    (getHeroes (Notif.error "down")).2.length = 1 ∧
    (getHero 5 (Notif.next ⟨1, "a"⟩)).2.length = 1 ∧
    (getHero 5 (Notif.error "down")).2.length = 1 ∧
    (getHeroNo404 7 (Notif.next (⟨1, "a"⟩ :: []))).2 =
      [svcLog ("fetched hero id=" ++ toString (7 : Int))] ∧
    (getHeroNo404 7 (Notif.next [])).2 =
      [svcLog ("did not find hero id=" ++ toString (7 : Int))] ∧
    (getHeroNo404 7 (Notif.error "down")).2.length = 1 ∧
    (searchHeroes "wolf" (Notif.next (⟨1, "a"⟩ :: []))).2 =
      [svcLog ("found heroes matching \"" ++ "wolf" ++ "\"")] ∧
    (searchHeroes "wolf" (Notif.next [])).2 =
      [svcLog ("no heroes matching \"" ++ "wolf" ++ "\"")] ∧
    (searchHeroes "wolf" (Notif.error "down")).2.length = 1 ∧
    (searchHeroes "   " (Notif.error "down")).2 = [] ∧
    (addHero (Notif.next ⟨1, "a"⟩)).2.length = 1 ∧
    (addHero (Notif.error "down")).2.length = 1 ∧
    (deleteHero 5 (Notif.next ⟨1, "a"⟩)).2.length = 1 ∧
    (deleteHero 5 (Notif.error "down")).2.length = 1 ∧
    (updateHero ⟨1, "a"⟩ (Notif.next ())).2.length = 1 ∧
    (updateHero ⟨1, "a"⟩ (Notif.error "down")).2.length = 1 :=
  c9_one_message_per_result [⟨1, "a"⟩] [] ⟨1, "a"⟩ ⟨1, "a"⟩ ⟨1, "a"⟩
    "down" "wolf" "   " 5 7 5 (Notif.error "down") (by decide) (by decide)

/-- C10: For every local list and every record `r`, `HeroesComponent.delete r`
keeps the surviving elements in their original relative order (the result is a
sublist of the original), keeps every element not reference-equal to `r` with
unchanged multiplicity, and issues exactly one remote DELETE keyed by `r`'s id
— also when `r` is not an element of the list. -/
theorem c10_delete_frame (st : List Slot) (r : ORef) :
    List.Sublist (heroesDelete st r) st ∧
    (∀ s : Slot, slotNe s r = true → (heroesDelete st r).count s = st.count s) ∧
    heroesDeleteRequests r = [Request.delete (heroesUrl ++ "/" ++ toString r.hero.id)] := by
  refine ⟨List.filter_sublist _, ?_, rfl⟩
  intro s hsr
  simp [heroesDelete, List.count_filter, hsr]

/-- Witness for C10: deleting a record (tag 5) that is not an element of the
two-slot list leaves the multiplicity of the surviving record untouched. -/
theorem c10_witness :
    (heroesDelete [some ⟨0, ⟨1, "a"⟩⟩, none] ⟨5, ⟨1, "a"⟩⟩).count (some ⟨0, ⟨1, "a"⟩⟩) =
      ([some ⟨0, ⟨1, "a"⟩⟩, none] : List Slot).count (some ⟨0, ⟨1, "a"⟩⟩) :=
  (c10_delete_frame [some ⟨0, ⟨1, "a"⟩⟩, none] ⟨5, ⟨1, "a"⟩⟩).2.1
    (some ⟨0, ⟨1, "a"⟩⟩) (by decide)

end ToH
